import Mathlib

/-!
Verification of the SupplyGenie frontend chat view
(`supplygenie-frontend/components/chat-page-backup.tsx`).

The component is embedded shallowly: its data records (`Chat`, `Message`,
`Supplier`, `SupplierField`, the `ChatPageProps` prop contract) become Lean
structures, its event handlers become pure functions that return the list of
parent callbacks they invoke together with the new local state, and its JSX
tree is abstracted to a `RenderedView` record holding the data-bearing parts
of the output (chat rows, supplier sections, status messages, disabled
flags).  JavaScript string operations (`trim`, `toLowerCase`, `includes`,
`startsWith`, the `replace` of the phone regex) are modelled on the
character list underlying a `String`, so that every definition evaluates by
kernel reduction.
-/

/-! ### String helpers mirroring the JavaScript primitives -/

/-- Substring containment on character lists: `listInfix needle hay` is true
iff `needle` occurs contiguously inside `hay`, matching JS `includes`. -/
def listInfix (needle : List Char) : List Char → Bool
  | [] => needle.isEmpty
  | a :: t => List.isPrefixOf needle (a :: t) || listInfix needle t

/-- JS `String.prototype.includes`. -/
def jsIncludes (s sub : String) : Bool := listInfix sub.data s.data

/-- JS `String.prototype.startsWith`. -/
def jsStartsWith (s p : String) : Bool := List.isPrefixOf p.data s.data

/-- JS `String.prototype.trim`: drop leading and trailing whitespace. -/
def jsTrim (s : String) : String :=
  String.mk (((s.data.dropWhile Char.isWhitespace).reverse.dropWhile Char.isWhitespace).reverse)

/-- JS `String.prototype.toLowerCase` (character-wise). -/
def jsToLower (s : String) : String := String.mk (s.data.map Char.toLower)

theorem listIsPrefixOf_append (l₁ l₂ : List Char) :
    List.isPrefixOf l₁ (l₁ ++ l₂) = true := by
  induction l₁ with
  | nil => simp [List.isPrefixOf]
  | cons a t ih => simp [List.isPrefixOf, ih]

theorem listInfix_singleton (c : Char) (l : List Char) :
    listInfix [c] l = true ↔ c ∈ l := by
  induction l with
  | nil => simp [listInfix, List.isEmpty]
  | cons a t ih => simp [listInfix, List.isPrefixOf, ih]

theorem jsStartsWith_append (p s : String) : jsStartsWith (p ++ s) p = true := by
  have h : (p ++ s).data = p.data ++ s.data := String.data_append p s
  simp only [jsStartsWith, h]
  exact listIsPrefixOf_append p.data s.data

/-! ### Data model (the `interface` declarations of the source file) -/

/-- `interface UserType` (name, email, optional avatar, uid). -/
structure UserType where
  name : String
  email : String
  avatar : Option String
  uid : String
deriving DecidableEq

/-- `interface SupplierField`: a labelled display value with a display kind
(`"text" | "badge" | "rating" | "price" | "location" | "time"`). -/
structure SupplierField where
  label : String
  value : String
  kind : String
deriving DecidableEq

/-- `interface Supplier`. -/
structure Supplier where
  id : String
  name : String
  fields : List SupplierField
deriving DecidableEq

/-- `interface Message`; `timestamp : Date` is modelled as milliseconds. -/
structure Message where
  id : String
  type : String
  content : String
  timestamp : Nat
  suppliers : Option (List Supplier)
deriving DecidableEq

/-- `interface Chat`. -/
structure Chat where
  id : String
  title : String
  messages : List Message
deriving DecidableEq

/-- The data fields of `interface ChatPageProps`.  The callback props
(`onChatSelect`, `onSendMessage`, `onMessageChange`, ...) are modelled by the
`EmittedCall` values the handlers return rather than as function fields. -/
structure ChatPageProps where
  user : UserType
  chats : List Chat
  activeChat : Option String
  messages : List Message
  currentMessage : String
  search : String
  isAssistantTyping : Bool
  renamingChatId : Option String
  renameValue : String
deriving DecidableEq

/-- The values the `useSpeechToText` hook supplies to the component. -/
structure SpeechState where
  isSupported : Bool
  isRecording : Bool
  transcript : String
  error : String
deriving DecidableEq

/-- The component's own `useState` state: the single boolean
`const [sidebarOpen, setSidebarOpen] = useState(false)`. -/
structure LocalState where
  sidebarOpen : Bool
deriving DecidableEq

/-- An invocation of one of the parent-supplied callback props. -/
inductive EmittedCall where
  | chatSelect (chatId : String)
  | messageChange (value : String)
  | sendMessage
deriving DecidableEq

/-! ### ContactButton -/

/-- The `type` prop of `ContactButton`. -/
inductive ContactType where
  | email
  | phone
  | website
deriving DecidableEq

/-- Characters the phone regex `[^\d+()-]` keeps: digits, plus, parens,
hyphen. -/
def keepPhoneChar (c : Char) : Bool :=
  c.isDigit || c == '+' || c == '(' || c == ')' || c == '-'

/-- `ContactButton.getHref`, translated branch for branch from the source. -/
def getHref (t : ContactType) (value : String) : String :=
  let cleanValue := jsTrim value
  match t with
  | ContactType.email =>
      if jsIncludes cleanValue "@" then "mailto:" ++ cleanValue else "#"
  | ContactType.phone =>
      let phoneNumber := String.mk (cleanValue.data.filter keepPhoneChar)
      if phoneNumber ≠ "" then "tel:" ++ phoneNumber else "#"
  | ContactType.website =>
      if jsStartsWith cleanValue "http://" || jsStartsWith cleanValue "https://" then
        cleanValue
      else if jsIncludes cleanValue "." then "https://" ++ cleanValue
      else "#"

/-- The URL `ContactButton.handleClick` passes to `window.open`, if any:
`if (href && href !== '#') window.open(href, '_blank')`. -/
def handleClickUrl (t : ContactType) (value : String) : Option String :=
  let href := getHref t value
  if href ≠ "" ∧ href ≠ "#" then some href else none

/-- `ContactButton.handleClick` with `window.open` abstracted as a fallible
`openFn`; the `catch` block logs the error and swallows it. -/
def handleClick (openFn : String → Except String Unit) (t : ContactType)
    (value : String) : Except String Unit :=
  let attempt : Except String Unit :=
    match handleClickUrl t value with
    | some href => openFn href
    | none => Except.ok ()
  match attempt with
  | Except.ok _ => Except.ok ()
  | Except.error _ => Except.ok ()

/-- URL shapes the spec claims for opened contact links. -/
def isClaimedContactUrl (url : String) : Bool :=
  jsStartsWith url "mailto:" || jsStartsWith url "tel:" || jsStartsWith url "https:"

/-- URL shapes the code actually produces (the spec list plus plain
`http:`, which the website branch passes through unchanged). -/
def isAllowedContactUrl (url : String) : Bool :=
  jsStartsWith url "mailto:" || jsStartsWith url "tel:" ||
    jsStartsWith url "https:" || jsStartsWith url "http:"

example : getHref ContactType.email " a@b.com " = "mailto:a@b.com" := by decide
example : getHref ContactType.phone "+1 (23) 4-5x" = "tel:+1(23)4-5" := by decide
example : getHref ContactType.phone "abc" = "#" := by decide
example : getHref ContactType.website "example.com" = "https://example.com" := by decide
example : getHref ContactType.website "http://example.com" = "http://example.com" := by decide
example : getHref ContactType.website "nodothere" = "#" := by decide
example : handleClickUrl ContactType.email "nope" = none := by decide

/-! ### Rendered view -/

/-- One row of the sidebar chat list (lines 526-570): either the rename
input (when `renamingChatId === chat.id`) or the chat title, plus the
message-count label. -/
structure RenderedChatRow where
  chatId : String
  showsRenameInput : Bool
  renameInputValue : Option String
  titleText : Option String
  messageCount : Nat
deriving DecidableEq

/-- One supplier card of the results grid. -/
structure RenderedSupplierCard where
  supplierId : String
  supplierName : String
deriving DecidableEq

/-- The supplier results section of one assistant message: the header line
and the card grid. -/
structure RenderedSupplierSection where
  headerText : String
  cards : List RenderedSupplierCard
deriving DecidableEq

/-- One rendered conversation message. -/
structure RenderedMessage where
  contentText : String
  fromUser : Bool
  supplierSection : Option RenderedSupplierSection
deriving DecidableEq

/-- The data-bearing parts of the component's JSX output. -/
structure RenderedView where
  chatsBadgeCount : Nat
  chatRows : List RenderedChatRow
  renderedMessages : List RenderedMessage
  emptyStateShown : Bool
  typingIndicatorShown : Bool
  inputValue : String
  inputDisabled : Bool
  micDisabled : Bool
  sendDisabled : Bool
  voiceUnsupportedMsg : Option String
  speechErrorMsg : Option String
  sidebarOverlayShown : Bool
  titleBarText : Option String
deriving DecidableEq

/-- `const filteredChats = chats.filter(chat =>
chat.title.toLowerCase().includes(search.toLowerCase()))` (line 390). -/
def filteredChats (chats : List Chat) (search : String) : List Chat :=
  chats.filter (fun chat => jsIncludes (jsToLower chat.title) (jsToLower search))

/-- A sidebar row: the ternary `renamingChatId === chat.id ? <input .../> :
<span>{chat.title}</span>` plus the `{chat.messages.length} messages`
label. -/
def renderChatRow (renamingChatId : Option String) (renameValue : String)
    (chat : Chat) : RenderedChatRow :=
  if renamingChatId == some chat.id then
    { chatId := chat.id, showsRenameInput := true,
      renameInputValue := some renameValue, titleText := none,
      messageCount := chat.messages.length }
  else
    { chatId := chat.id, showsRenameInput := false, renameInputValue := none,
      titleText := some chat.title, messageCount := chat.messages.length }

/-- The supplier results block guarded by `message.suppliers &&
message.suppliers.length > 0` (line 646), with the header text
`Found {message.suppliers.length} suppliers matching your criteria`. -/
def supplierSectionFor (m : Message) : Option RenderedSupplierSection :=
  match m.suppliers with
  | none => none
  | some sups =>
      if 0 < sups.length then
        some { headerText :=
                 "Found " ++ toString sups.length ++ " suppliers matching your criteria",
               cards := sups.map (fun s =>
                 { supplierId := s.id, supplierName := s.name }) }
      else none

/-- One conversation message bubble plus its optional supplier section. -/
def renderMessage (m : Message) : RenderedMessage :=
  { contentText := m.content, fromUser := m.type == "user",
    supplierSection := supplierSectionFor m }

/-- The message input's `disabled={isAssistantTyping}` (line 838). -/
def messageInputDisabled (isAssistantTyping : Bool) : Bool := isAssistantTyping

/-- The send button's `disabled={isAssistantTyping || !currentMessage.trim()}`
(line 858). -/
def sendButtonDisabled (isAssistantTyping : Bool) (currentMessage : String) : Bool :=
  isAssistantTyping || jsTrim currentMessage == ""

/-- The mic button's `disabled={!isSpeechSupported || isAssistantTyping}`
(line 848). -/
def micButtonDisabled (isSpeechSupported isAssistantTyping : Bool) : Bool :=
  !isSpeechSupported || isAssistantTyping

/-- The desktop title bar text `chats.find(c => c.id === activeChat)?.title
|| "Select a chat"` (line 579), shown only when not mobile. -/
def titleBarTextFor (chats : List Chat) (activeChat : Option String) : String :=
  match chats.find? (fun c => some c.id == activeChat) with
  | some c => if c.title == "" then "Select a chat" else c.title
  | none => "Select a chat"

/-- The component's render function: props, the `useIsMobile` hook value,
local state and the speech hook values in; the abstracted JSX out. -/
def render (p : ChatPageProps) (isMobile : Bool) (st : LocalState)
    (sp : SpeechState) : RenderedView :=
  { chatsBadgeCount := p.chats.length,
    chatRows := (filteredChats p.chats p.search).map
      (renderChatRow p.renamingChatId p.renameValue),
    renderedMessages := p.messages.map renderMessage,
    emptyStateShown := p.messages.length == 0,
    typingIndicatorShown := !(p.messages.length == 0) && p.isAssistantTyping,
    inputValue := p.currentMessage,
    inputDisabled := messageInputDisabled p.isAssistantTyping,
    micDisabled := micButtonDisabled sp.isSupported p.isAssistantTyping,
    sendDisabled := sendButtonDisabled p.isAssistantTyping p.currentMessage,
    voiceUnsupportedMsg :=
      if sp.isSupported then none
      else some "Voice input is not supported in this browser.",
    speechErrorMsg := if sp.error == "" then none else some sp.error,
    sidebarOverlayShown := isMobile && st.sidebarOpen,
    titleBarText :=
      if isMobile then none else some (titleBarTextFor p.chats p.activeChat) }

/-! ### Event handlers and effects -/

/-- `handleMobileChatSelect` (lines 393-398): call `onChatSelect(chatId)`;
when mobile, also close the sidebar. -/
def handleMobileChatSelect (isMobile : Bool) (st : LocalState)
    (chatId : String) : List EmittedCall × LocalState :=
  ([EmittedCall.chatSelect chatId],
   if isMobile then { st with sidebarOpen := false } else st)

/-- The first transcript effect (lines 354-358): on a transcript change,
`if (isRecording && !isAssistantTyping) onMessageChange(transcript)`. -/
def transcriptChangeEffect (isRecording isAssistantTyping : Bool)
    (transcript : String) : List EmittedCall :=
  if isRecording && !isAssistantTyping then
    [EmittedCall.messageChange transcript]
  else []

/-- The recording-end effect (lines 368-375): `if (!isRecording && transcript
&& !isAssistantTyping)` set the transcript as the message and focus the
input; the Bool records the focus request. -/
def recordingEndEffect (isRecording : Bool) (transcript : String)
    (isAssistantTyping : Bool) : List EmittedCall × Bool :=
  if !isRecording && !(transcript == "") && !isAssistantTyping then
    ([EmittedCall.messageChange transcript], true)
  else ([], false)

/-- The input's `onKeyDown={e => { if (e.key === 'Enter' &&
!isAssistantTyping) onSendMessage() }}` (line 837). -/
def inputKeyDownEffect (key : String) (isAssistantTyping : Bool) : List EmittedCall :=
  if key == "Enter" && !isAssistantTyping then [EmittedCall.sendMessage] else []

/-- Clicking the send button: the browser suppresses the click when the
button is disabled, otherwise `onClick={onSendMessage}` fires. -/
def sendButtonClick (isAssistantTyping : Bool) (currentMessage : String) : List EmittedCall :=
  if sendButtonDisabled isAssistantTyping currentMessage then []
  else [EmittedCall.sendMessage]

/-! ### Concrete sample data used by witnesses -/

def sampleUser : UserType :=
  { name := "Ada Lovelace", email := "ada@example.com", avatar := none, uid := "u1" }

def sampleSupplier : Supplier :=
  { id := "s1", name := "Acme Metals",
    fields := [{ label := "Location", value := "Lisbon", kind := "location" }] }

def sampleSupplierMsg : Message :=
  { id := "m2", type := "assistant", content := "Here are suppliers.",
    timestamp := 2, suppliers := some [sampleSupplier] }

def samplePlainMsg : Message :=
  { id := "m1", type := "user", content := "hi", timestamp := 1, suppliers := none }

def sampleChat : Chat :=
  { id := "c1", title := "Alpha sourcing", messages := [samplePlainMsg] }

def sampleProps : ChatPageProps :=
  { user := sampleUser, chats := [sampleChat], activeChat := some "c1",
    messages := [samplePlainMsg, sampleSupplierMsg], currentMessage := "",
    search := "", isAssistantTyping := false, renamingChatId := none,
    renameValue := "" }

def samplePropsRenaming : ChatPageProps :=
  { sampleProps with renamingChatId := some "c1", renameValue := "Beta" }

def sampleSpeech : SpeechState :=
  { isSupported := true, isRecording := false, transcript := "", error := "" }

/-! ### ContactButton lemmas -/

theorem listIsPrefixOf_of_append (l₁ l₂ : List Char) : ∀ (l₃ : List Char),
    List.isPrefixOf (l₁ ++ l₂) l₃ = true → List.isPrefixOf l₁ l₃ = true := by
  induction l₁ with
  | nil => intro l₃ _; simp [List.isPrefixOf]
  | cons a t ih =>
      intro l₃ h
      cases l₃ with
      | nil => simp [List.isPrefixOf] at h
      | cons b t₃ =>
          simp only [List.cons_append, List.isPrefixOf, Bool.and_eq_true] at h ⊢
          exact ⟨h.1, ih t₃ h.2⟩

theorem jsStartsWith_weaken (s p q : String) :
    jsStartsWith s (p ++ q) = true → jsStartsWith s p = true := by
  simp only [jsStartsWith, String.data_append]
  exact listIsPrefixOf_of_append p.data q.data s.data

/-- Every non-`#` result of `getHref` is a `mailto:`, `tel:`, `https:` or
`http:` URL. -/
theorem getHref_shape (t : ContactType) (value : String) :
    getHref t value = "#" ∨ isAllowedContactUrl (getHref t value) = true := by
  cases t with
  | email =>
      simp only [getHref]
      by_cases h : jsIncludes (jsTrim value) "@" = true
      · rw [if_pos h]
        right
        simp [isAllowedContactUrl, jsStartsWith_append]
      · rw [if_neg h]
        left
        rfl
  | phone =>
      simp only [getHref]
      by_cases h : String.mk ((jsTrim value).data.filter keepPhoneChar) ≠ ""
      · rw [if_pos h]
        right
        simp [isAllowedContactUrl, jsStartsWith_append]
      · rw [if_neg h]
        left
        rfl
  | website =>
      simp only [getHref]
      by_cases h₁ : (jsStartsWith (jsTrim value) "http://" ||
          jsStartsWith (jsTrim value) "https://") = true
      · rw [if_pos h₁]
        right
        rcases Bool.or_eq_true _ _ |>.mp h₁ with h | h
        · have hw : jsStartsWith (jsTrim value) "http:" = true :=
            jsStartsWith_weaken (jsTrim value) "http:" "//" h
          simp [isAllowedContactUrl, hw]
        · have hw : jsStartsWith (jsTrim value) "https:" = true :=
            jsStartsWith_weaken (jsTrim value) "https:" "//" h
          simp [isAllowedContactUrl, hw]
      · rw [if_neg h₁]
        by_cases h₂ : jsIncludes (jsTrim value) "." = true
        · rw [if_pos h₂]
          right
          have hw : jsStartsWith ("https://" ++ jsTrim value) "https:" = true :=
            jsStartsWith_weaken ("https://" ++ jsTrim value) "https:" "//"
              (jsStartsWith_append "https://" (jsTrim value))
          simp [isAllowedContactUrl, hw]
        · rw [if_neg h₂]
          left
          rfl

/-- C1 counterexample: for a website contact whose value already carries the
`http://` scheme, the click handler passes a plain `http:` URL to
`window.open`, which is none of `mailto:`, `tel:`, `https:`. -/
theorem c1_counterexample :
    handleClickUrl ContactType.website "http://supplier.example.com" =
      some "http://supplier.example.com" ∧
    isClaimedContactUrl "http://supplier.example.com" = false := by decide

/-- C1 (amended): every URL the `ContactButton` click handler passes to
`window.open` is a `mailto:`, `tel:`, `https:` or plain `http:` link, the
handler opens nothing when the computed href is `#`, and an exception
raised while opening the link is caught inside the handler and never
propagated (for any behaviour of `window.open`, `handleClick` returns
normally). -/
theorem c1_contact_links (openFn : String → Except String Unit)
    (t : ContactType) (value : String) :
    handleClick openFn t value = Except.ok () ∧
    (∀ url, handleClickUrl t value = some url → isAllowedContactUrl url = true) ∧
    (getHref t value = "#" → handleClickUrl t value = none) := by
  refine ⟨?_, ?_, ?_⟩
  · simp only [handleClick]
    cases h : handleClickUrl t value with
    | none => simp [h]
    | some href =>
        simp only [h]
        cases ho : openFn href <;> simp [ho]
  · intro url hurl
    simp only [handleClickUrl] at hurl
    by_cases hc : getHref t value ≠ "" ∧ getHref t value ≠ "#"
    · rw [if_pos hc] at hurl
      have hu : getHref t value = url := Option.some.inj hurl
      rcases getHref_shape t value with hsharp | hok
      · exact absurd hsharp hc.2
      · rw [hu] at hok
        exact hok
    · rw [if_neg hc] at hurl
      exact absurd hurl (by simp)
  · intro hsharp
    simp [handleClickUrl, hsharp]

/-- C1 witness: the email contact ` a@b.com ` opens `mailto:a@b.com`, an
allowed URL. -/
theorem c1_contact_links_witness : isAllowedContactUrl "mailto:a@b.com" = true :=
  (c1_contact_links (fun _ => Except.ok ()) ContactType.email " a@b.com ").2.1
    "mailto:a@b.com" (by decide)

/-- `getHref` rewritten word for word from the claimed description: trimmed
value `v`; email gives `mailto:` when `v` contains `@`; phone keeps only
digits, `+`, `(`, `)`, `-` and gives `tel:` when the remainder is
non-empty; website passes through `http(s)://` values, prefixes `https://`
when `v` contains a dot, and falls back to `#`. -/
def getHrefBySpec (t : ContactType) (value : String) : String :=
  let v := jsTrim value
  match t with
  | ContactType.email => if '@' ∈ v.data then "mailto:" ++ v else "#"
  | ContactType.phone =>
      let r := String.mk (v.data.filter
        (fun c => c.isDigit || c == '+' || c == '(' || c == ')' || c == '-'))
      if r = "" then "#" else "tel:" ++ r
  | ContactType.website =>
      if jsStartsWith v "http://" || jsStartsWith v "https://" then v
      else if '.' ∈ v.data then "https://" ++ v
      else "#"

/-- C9: `getHref` is total (a Lean function) and agrees with the claimed
case description on every contact type and value. -/
theorem c9_getHref_description (t : ContactType) (value : String) :
    getHref t value = getHrefBySpec t value := by
  cases t with
  | email =>
      simp only [getHref, getHrefBySpec]
      by_cases h : '@' ∈ (jsTrim value).data
      · have h' : jsIncludes (jsTrim value) "@" = true :=
          (listInfix_singleton '@' (jsTrim value).data).mpr h
        rw [if_pos h', if_pos h]
      · have h' : ¬ jsIncludes (jsTrim value) "@" = true := fun hc =>
          h ((listInfix_singleton '@' (jsTrim value).data).mp hc)
        rw [if_neg h', if_neg h]
  | phone =>
      simp only [getHref, getHrefBySpec]
      have hk : keepPhoneChar =
          (fun c => c.isDigit || c == '+' || c == '(' || c == ')' || c == '-') := rfl
      rw [hk]
      by_cases h : String.mk ((jsTrim value).data.filter
          (fun c => c.isDigit || c == '+' || c == '(' || c == ')' || c == '-')) = ""
      · rw [if_neg (not_not_intro h), if_pos h]
      · rw [if_pos h, if_neg h]
  | website =>
      simp only [getHref, getHrefBySpec]
      by_cases h₁ : (jsStartsWith (jsTrim value) "http://" ||
          jsStartsWith (jsTrim value) "https://") = true
      · rw [if_pos h₁, if_pos h₁]
      · rw [if_neg h₁, if_neg h₁]
        by_cases h₂ : '.' ∈ (jsTrim value).data
        · have h' : jsIncludes (jsTrim value) "." = true :=
            (listInfix_singleton '.' (jsTrim value).data).mpr h₂
          rw [if_pos h', if_pos h₂]
        · have h' : ¬ jsIncludes (jsTrim value) "." = true := fun hc =>
            h₂ ((listInfix_singleton '.' (jsTrim value).data).mp hc)
          rw [if_neg h', if_neg h₂]

/-! ### View and handler theorems -/

/-- C2 counterexample: two prop records that agree on every field except
`renamingChatId`/`renameValue` render differently under identical local
state, so which chat is being renamed and the in-progress rename text are
supplied by the parent through props, not kept as local component state. -/
theorem c2_counterexample :
    sampleProps.renamingChatId ≠ samplePropsRenaming.renamingChatId ∧
    sampleProps.user = samplePropsRenaming.user ∧
    sampleProps.chats = samplePropsRenaming.chats ∧
    sampleProps.activeChat = samplePropsRenaming.activeChat ∧
    sampleProps.messages = samplePropsRenaming.messages ∧
    sampleProps.currentMessage = samplePropsRenaming.currentMessage ∧
    sampleProps.search = samplePropsRenaming.search ∧
    sampleProps.isAssistantTyping = samplePropsRenaming.isAssistantTyping ∧
    render sampleProps false { sidebarOpen := false } sampleSpeech ≠
      render samplePropsRenaming false { sidebarOpen := false } sampleSpeech := by
  decide

/-- C2 (amended): the rename-in-progress display is driven entirely by the
parent-supplied props `renamingChatId` and `renameValue`: a sidebar row
shows the rename input exactly when `renamingChatId` equals its chat id,
the input carries `renameValue`, and the rows do not depend on the
component's own local state, which consists of the single boolean
`sidebarOpen`. -/
theorem c2_rename_state_is_prop_driven (p : ChatPageProps) (isMobile : Bool)
    (st st' : LocalState) (sp : SpeechState) (chat : Chat)
    (hmem : chat ∈ filteredChats p.chats p.search) :
    renderChatRow p.renamingChatId p.renameValue chat ∈
      (render p isMobile st sp).chatRows ∧
    (renderChatRow p.renamingChatId p.renameValue chat).showsRenameInput =
      (p.renamingChatId == some chat.id) ∧
    (p.renamingChatId = some chat.id →
      (renderChatRow p.renamingChatId p.renameValue chat).renameInputValue =
        some p.renameValue) ∧
    (render p isMobile st sp).chatRows = (render p isMobile st' sp).chatRows := by
  refine ⟨?_, ?_, ?_, rfl⟩
  · simp only [render]
    exact List.mem_map_of_mem (renderChatRow p.renamingChatId p.renameValue) hmem
  · cases h : (p.renamingChatId == some chat.id) <;> simp [renderChatRow, h]
  · intro h
    simp [renderChatRow, h]

/-- C2 witness: in the sample props that rename chat `c1`, the rename row is
among the rendered rows. -/
theorem c2_rename_state_is_prop_driven_witness :
    renderChatRow (some "c1") "Beta" sampleChat ∈
      (render samplePropsRenaming false { sidebarOpen := false }
        sampleSpeech).chatRows :=
  (c2_rename_state_is_prop_driven samplePropsRenaming false
    { sidebarOpen := false } { sidebarOpen := true } sampleSpeech sampleChat
    (by decide)).1

/-- C3: a message renders a supplier section exactly when its suppliers list
is present and non-empty; the section's header reads
`Found N suppliers matching your criteria` with `N` the length of that
list, and its cards are the suppliers in list order, one card per
supplier. -/
theorem c3_supplier_sections (p : ChatPageProps) (isMobile : Bool)
    (st : LocalState) (sp : SpeechState) (m : Message) (hmem : m ∈ p.messages) :
    renderMessage m ∈ (render p isMobile st sp).renderedMessages ∧
    (∀ sups, m.suppliers = some sups → sups ≠ [] →
      ∃ sect, (renderMessage m).supplierSection = some sect ∧
        sect.headerText =
          "Found " ++ toString sups.length ++ " suppliers matching your criteria" ∧
        sect.cards = sups.map (fun s =>
          { supplierId := s.id, supplierName := s.name }) ∧
        sect.cards.length = sups.length) ∧
    (m.suppliers = none → (renderMessage m).supplierSection = none) ∧
    (m.suppliers = some [] → (renderMessage m).supplierSection = none) := by
  refine ⟨?_, ?_, ?_, ?_⟩
  · simp only [render]
    exact List.mem_map_of_mem renderMessage hmem
  · intro sups hsome hne
    have hpos : 0 < sups.length := List.length_pos.mpr hne
    have hsect : (renderMessage m).supplierSection =
        some { headerText :=
                 "Found " ++ toString sups.length ++ " suppliers matching your criteria",
               cards := sups.map (fun s =>
                 { supplierId := s.id, supplierName := s.name }) } := by
      simp [renderMessage, supplierSectionFor, hsome, hpos]
    exact ⟨_, hsect, rfl, rfl, by simp⟩
  · intro hnone
    simp [renderMessage, supplierSectionFor, hnone]
  · intro hnil
    simp [renderMessage, supplierSectionFor, hnil]

/-- C3 witness: the sample assistant message with one supplier renders a
section whose header counts exactly one supplier. -/
theorem c3_supplier_sections_witness :
    renderMessage sampleSupplierMsg ∈
      (render sampleProps false { sidebarOpen := false }
        sampleSpeech).renderedMessages ∧
    ∃ sect, (renderMessage sampleSupplierMsg).supplierSection = some sect ∧
      sect.headerText = "Found 1 suppliers matching your criteria" :=
  have h := c3_supplier_sections sampleProps false { sidebarOpen := false }
    sampleSpeech sampleSupplierMsg (by decide)
  ⟨h.1, by
    rcases h.2.1 [sampleSupplier] (by decide) (by decide) with
      ⟨sect, hsect, hhdr, _, _⟩
    exact ⟨sect, hsect, hhdr⟩⟩

/-- C4: the browser-support warning is rendered iff the speech hook reports
`isSupported = false`, and the speech error text is rendered iff the hook's
error value is non-empty, in which case it shows exactly that error. -/
theorem c4_speech_status_messages (p : ChatPageProps) (isMobile : Bool)
    (st : LocalState) (sp : SpeechState) :
    ((render p isMobile st sp).voiceUnsupportedMsg =
        some "Voice input is not supported in this browser." ↔
      sp.isSupported = false) ∧
    ((render p isMobile st sp).voiceUnsupportedMsg = none ↔
      sp.isSupported = true) ∧
    (∀ e, (render p isMobile st sp).speechErrorMsg = some e ↔
      sp.error = e ∧ e ≠ "") ∧
    ((render p isMobile st sp).speechErrorMsg = none ↔ sp.error = "") := by
  refine ⟨?_, ?_, ?_, ?_⟩
  · cases h : sp.isSupported <;> simp [render, h]
  · cases h : sp.isSupported <;> simp [render, h]
  · intro e
    by_cases h : sp.error = ""
    · have hmsg : (render p isMobile st sp).speechErrorMsg = none := by
        simp [render, h]
      rw [hmsg]
      constructor
      · intro hc
        exact absurd hc (by simp)
      · rintro ⟨he, hne⟩
        exact absurd (he ▸ h) hne
    · have hb : (sp.error == "") = false := by simp [h]
      have hmsg : (render p isMobile st sp).speechErrorMsg = some sp.error := by
        simp [render, hb]
      rw [hmsg]
      constructor
      · intro hc
        have he : sp.error = e := Option.some.inj hc
        exact ⟨he, fun hne => h (he.trans hne)⟩
      · rintro ⟨he, _⟩
        rw [he]
  · by_cases h : sp.error = ""
    · simp [render, h]
    · have hb : (sp.error == "") = false := by simp [h]
      simp [render, hb, h]

/-- C4 witness: with speech unsupported, the warning text is rendered. -/
theorem c4_speech_status_messages_witness :
    (render sampleProps false { sidebarOpen := false }
        { sampleSpeech with isSupported := false }).voiceUnsupportedMsg =
      some "Voice input is not supported in this browser." :=
  (c4_speech_status_messages sampleProps false { sidebarOpen := false }
    { sampleSpeech with isSupported := false }).1.mpr rfl

/-- C5: clicking a sidebar chat row invokes exactly the `onChatSelect`
callback with that chat's id (so the handler itself changes no chat list),
and it sets the local sidebar-open state to false when, and only when, the
view is in mobile mode. -/
theorem c5_chat_row_click (isMobile : Bool) (st : LocalState) (chatId : String) :
    (handleMobileChatSelect isMobile st chatId).1 =
      [EmittedCall.chatSelect chatId] ∧
    (isMobile = true →
      ((handleMobileChatSelect isMobile st chatId).2).sidebarOpen = false) ∧
    (isMobile = false → (handleMobileChatSelect isMobile st chatId).2 = st) := by
  cases isMobile <;> simp [handleMobileChatSelect]

/-- C5 witness: selecting chat `c1` on mobile with the sidebar open closes
the sidebar. -/
theorem c5_chat_row_click_witness :
    ((handleMobileChatSelect true { sidebarOpen := true } "c1").2).sidebarOpen = false :=
  (c5_chat_row_click true { sidebarOpen := true } "c1").2.1 rfl

/-- C6: while recording and the assistant is not typing, a transcript change
invokes `onMessageChange` with the new transcript; when recording has
stopped with a non-empty transcript and the assistant is not typing, the
recording-end effect invokes `onMessageChange` with the transcript and
requests input focus; while the assistant is typing neither effect emits
any `onMessageChange`. -/
theorem c6_transcript_effects (isRecording isAssistantTyping : Bool)
    (transcript : String) :
    (isRecording = true → isAssistantTyping = false →
      transcriptChangeEffect isRecording isAssistantTyping transcript =
        [EmittedCall.messageChange transcript]) ∧
    (isRecording = false → transcript ≠ "" → isAssistantTyping = false →
      recordingEndEffect isRecording transcript isAssistantTyping =
        ([EmittedCall.messageChange transcript], true)) ∧
    (isAssistantTyping = true →
      transcriptChangeEffect isRecording isAssistantTyping transcript = [] ∧
      (recordingEndEffect isRecording transcript isAssistantTyping).1 = []) := by
  refine ⟨?_, ?_, ?_⟩
  · intro hr ht
    simp [transcriptChangeEffect, hr, ht]
  · intro hr hne ht
    have hb : (transcript == "") = false := by simp [hne]
    simp [recordingEndEffect, hr, ht, hb]
  · intro ht
    constructor
    · simp [transcriptChangeEffect, ht]
    · simp [recordingEndEffect, ht]

/-- C6 witness: recording just ended with transcript `hello` while the
assistant is idle, so the transcript is pushed into the message box and the
input is focused. -/
theorem c6_transcript_effects_witness :
    recordingEndEffect false "hello" false =
      ([EmittedCall.messageChange "hello"], true) :=
  (c6_transcript_effects false false "hello").2.1 rfl (by decide) rfl

/-- C7: rendering is a deterministic pure function of props, the mobile
flag, local state and the speech-hook values: equal inputs produce equal
rendered output.  The source render reads its props only through the
non-mutating `filter`, `map` and `find` operations, which the embedding
reflects as a total function on immutable values, so rendering leaves the
props unchanged by construction. -/
theorem c7_render_deterministic (p p' : ChatPageProps) (m m' : Bool)
    (st st' : LocalState) (sp sp' : SpeechState)
    (hp : p = p') (hm : m = m') (hst : st = st') (hsp : sp = sp') :
    render p m st sp = render p' m' st' sp' := by
  subst hp
  subst hm
  subst hst
  subst hsp
  rfl

/-- C7 witness: the sample inputs render equal to themselves. -/
theorem c7_render_deterministic_witness :
    render sampleProps false { sidebarOpen := false } sampleSpeech =
      render sampleProps false { sidebarOpen := false } sampleSpeech :=
  c7_render_deterministic sampleProps sampleProps false false
    { sidebarOpen := false } { sidebarOpen := false } sampleSpeech sampleSpeech
    rfl rfl rfl rfl

/-- C8: the sidebar rows are exactly the chats whose lowercased title
contains the lowercased search string, in the original order of the chats
list (the filtered list is a sublist of `chats`), while the `CHATS` count
badge always shows the length of the full chats list. -/
theorem c8_sidebar_filter_and_badge (p : ChatPageProps) (isMobile : Bool)
    (st : LocalState) (sp : SpeechState) :
    (render p isMobile st sp).chatRows =
      (filteredChats p.chats p.search).map
        (renderChatRow p.renamingChatId p.renameValue) ∧
    (∀ chat, chat ∈ filteredChats p.chats p.search ↔
      chat ∈ p.chats ∧
        jsIncludes (jsToLower chat.title) (jsToLower p.search) = true) ∧
    List.Sublist (filteredChats p.chats p.search) p.chats ∧
    (render p isMobile st sp).chatsBadgeCount = p.chats.length := by
  refine ⟨rfl, ?_, ?_, rfl⟩
  · intro chat
    simp [filteredChats, List.mem_filter]
  · exact List.filter_sublist p.chats

/-- C8 witness: in the sample props the single chat matches the empty
search, the filtered list is a sublist of the full list, and the badge
counts one chat. -/
theorem c8_sidebar_filter_and_badge_witness :
    List.Sublist (filteredChats sampleProps.chats sampleProps.search)
      sampleProps.chats ∧
    (render sampleProps false { sidebarOpen := false }
      sampleSpeech).chatsBadgeCount = sampleProps.chats.length :=
  have h := c8_sidebar_filter_and_badge sampleProps false
    { sidebarOpen := false } sampleSpeech
  ⟨h.2.2.1, h.2.2.2⟩

/-- C10: the input bar never triggers `onSendMessage` while the assistant is
typing (the Enter handler checks the flag, and both the input and the send
button are disabled); with the assistant idle, the Enter key triggers
`onSendMessage` regardless of the current message, even empty or
whitespace-only, whereas the send button is disabled whenever the trimmed
current message is empty. -/
theorem c10_send_gating (key : String) (isAssistantTyping : Bool)
    (currentMessage : String) :
    (isAssistantTyping = true →
      inputKeyDownEffect key isAssistantTyping = [] ∧
      sendButtonClick isAssistantTyping currentMessage = [] ∧
      messageInputDisabled isAssistantTyping = true ∧
      sendButtonDisabled isAssistantTyping currentMessage = true) ∧
    (isAssistantTyping = false →
      inputKeyDownEffect "Enter" isAssistantTyping =
        [EmittedCall.sendMessage]) ∧
    (jsTrim currentMessage = "" →
      sendButtonDisabled isAssistantTyping currentMessage = true) := by
  refine ⟨?_, ?_, ?_⟩
  · intro ht
    refine ⟨?_, ?_, ?_, ?_⟩
    · simp [inputKeyDownEffect, ht]
    · simp [sendButtonClick, sendButtonDisabled, ht]
    · simp [messageInputDisabled, ht]
    · simp [sendButtonDisabled, ht]
  · intro ht
    simp [inputKeyDownEffect, ht]
  · intro htrim
    simp [sendButtonDisabled, htrim]

/-- C10 witness: with the assistant idle and a whitespace-only message, the
Enter key still emits `onSendMessage` while the send button is disabled. -/
theorem c10_send_gating_witness :
    inputKeyDownEffect "Enter" false = [EmittedCall.sendMessage] ∧
    sendButtonDisabled false "   " = true :=
  ⟨(c10_send_gating "Enter" false "   ").2.1 rfl,
   (c10_send_gating "Enter" false "   ").2.2 (by decide)⟩
